import Mathlib

/-!
Verification of the systemd service-lifecycle integration layer
(`go/systemd/systemd_linux.go`): supervisor detection, socket-activation
resolution and readiness notification.

The Go file's effects are made explicit: subprocess invocations are inputs
(`CmdResult`), writes to stderr are collected in a list, the process
environment and inherited descriptor set are threaded as a `ProcState`.
External library calls from go-systemd (`sdActivation.Listeners`,
`sdDaemon.SdNotify`, `sdUtil.IsRunningSystemd`) are modelled from the spec,
as marked on their definitions; everything else is a direct translation of
the Go source.
-/

namespace Systemd

/-- Drop leading whitespace characters from a character list. -/
def trimLeftChars : List Char → List Char
  | [] => []
  | c :: cs => if c.isWhitespace then trimLeftChars cs else c :: cs

/-- Embedding of Go's `strings.TrimSpace`: remove leading and trailing
whitespace. Written by structural recursion on the character list so the
kernel can evaluate it on literals. -/
def trimSpace (s : String) : String :=
  String.mk (trimLeftChars (trimLeftChars s.data.reverse).reverse)

/-- Outcome of the error value returned by `exec.Cmd.Output`: either the
command ran and exited with a non-zero status (Go's `*exec.ExitError`), or
the invocation itself failed (binary missing, I/O failure, ...). -/
inductive CmdErr where
  | exitError
  | otherError (msg : String)
deriving DecidableEq, Repr

/-- Captured result of one subprocess invocation: the bytes of stdout and
the error value (`none` mirrors Go's `nil`). -/
structure CmdResult where
  output : String
  err : Option CmdErr
deriving DecidableEq, Repr

/-- Mirrors the Go type assertion `_, isExitError := err.(*exec.ExitError)`. -/
def isExitError : Option CmdErr → Bool
  | some CmdErr.exitError => true
  | _ => false

/-- Mirrors the Go guard `err != nil && !isExitError`: an invocation failure
that is not simply a non-zero exit status. -/
def hardFailure (e : Option CmdErr) : Bool :=
  e.isSome && !isExitError e

/-- Rendering of the error value, as `fmt.Sprintf` with verb `%s` shows it. -/
def goErrorString : Option CmdErr → String
  | some CmdErr.exitError => "exit status"
  | some (CmdErr.otherError m) => m
  | none => ""

/-- Observable outcome of `IsUserSystemdRunning`: the returned boolean, the
diagnostics written to stderr, and whether the second subprocess (the dbus
dependency probe) was launched. -/
structure HealthResult where
  result : Bool
  stderr : List String
  dbusProbed : Bool
deriving DecidableEq, Repr

/-- Translation of `IsUserSystemdRunning` from `systemd_linux.go`. The two
subprocess invocations — `systemctl --user is-system-running` and
`systemctl --user is-active dbus.service` — are passed in as the captured
results `statusRes` and `dbusRes`; the second is consulted only on the
branch where the Go code launches it. -/
def IsUserSystemdRunning (statusRes dbusRes : CmdResult) : HealthResult :=
  if hardFailure statusRes.err then
    { result := false
      stderr := ["Failed to run systemctl: check user manager status: " ++
                 goErrorString statusRes.err ++ "\n"]
      dbusProbed := false }
  else
    let outputStr := trimSpace statusRes.output
    if outputStr = "running" then
      { result := true, stderr := [], dbusProbed := false }
    else if outputStr = "degraded" then
      if hardFailure dbusRes.err then
        { result := false
          stderr := ["Failed to run systemctl: check dbus activity: " ++
                     goErrorString dbusRes.err ++ "\n"]
          dbusProbed := true }
      else
        { result := trimSpace dbusRes.output == "active"
          stderr := [], dbusProbed := true }
    else if outputStr = "" then
      { result := false
        stderr := ["Failed to reach user-level systemd daemon.\n"]
        dbusProbed := false }
    else
      { result := false
        stderr := ["Systemd reported an unexpected status: " ++ outputStr ++ "\n"]
        dbusProbed := false }

/-- Observable outcome of `IsRunningSystemd`: the returned boolean, whether
each of the two subprocesses was launched, and the diagnostics written. -/
structure SupervisionResult where
  result : Bool
  statusProbed : Bool
  dbusProbed : Bool
  stderr : List String
deriving DecidableEq, Repr

/-- Translation of `IsRunningSystemd`: `sdUtil.IsRunningSystemd() &&
IsUserSystemdRunning()`. The library call `sdUtil.IsRunningSystemd` is a
side-effect-free check of platform markers, taken here as the abstract
boolean `sysPresent`; Go's `&&` short-circuits, so the user-level probe and
its subprocesses run only when `sysPresent` is true. -/
def IsRunningSystemd (sysPresent : Bool) (statusRes dbusRes : CmdResult) :
    SupervisionResult :=
  if sysPresent then
    let r := IsUserSystemdRunning statusRes dbusRes
    { result := r.result, statusProbed := true, dbusProbed := r.dbusProbed
      stderr := r.stderr }
  else
    { result := false, statusProbed := false, dbusProbed := false, stderr := [] }

/-- Process environment, restricted to the variables this file reads:
`none` is an unset variable, `some v` a variable set to `v`. -/
structure Env where
  listenFDS : Option String
  notifySocket : Option String
deriving DecidableEq, Repr

/-- Mirrors `os.Getenv`, which yields the empty string for an unset
variable. -/
def getenv (e : Env) (name : String) : String :=
  if name = "LISTEN_FDS" then e.listenFDS.getD ""
  else if name = "NOTIFY_SOCKET" then e.notifySocket.getD ""
  else ""

/-- Translation of `IsSocketActivated`: `os.Getenv("LISTEN_FDS") != ""`. -/
def IsSocketActivated (e : Env) : Bool :=
  getenv e "LISTEN_FDS" != ""

/-- A network listener bound to an inherited file descriptor, identified by
its descriptor number. -/
structure Listener where
  fd : Nat
deriving DecidableEq, Repr

/-- Error values the resolver can return: the library's own failure,
propagated unchanged, or the configuration error the Go code constructs
with `errors.New`. -/
inductive GoErr where
  | activationFailure (msg : String)
  | configurationError (msg : String)
deriving DecidableEq, Repr

/-- Process state threaded through the stateful operations: the
environment, the inherited descriptor set fixed at exec time, and whether
the descriptor-resolution mechanism itself fails. -/
structure ProcState where
  env : Env
  inherited : List Listener
  activationErr : Option GoErr
deriving DecidableEq, Repr

/-- Modelled from the spec: `sdActivation.Listeners` (go-systemd, not in
this repository) resolves the inherited-descriptor set named by the
activation environment variables into listeners; when `unsetEnv` is true it
clears the activation marker, when false it leaves the environment
untouched. -/
def sdListeners (unsetEnv : Bool) (s : ProcState) :
    Except GoErr (List Listener) × ProcState :=
  let res : Except GoErr (List Listener) :=
    match s.activationErr with
    | some e => Except.error e
    | none => Except.ok s.inherited
  let after := if unsetEnv then { s with env := { s.env with listenFDS := none } } else s
  (res, after)

/-- Translation of `GetListenerFromEnvironment`: calls
`sdActivation.Listeners(false)`, propagates its error, rejects more than
one listener with a configuration error, returns the single listener when
there is exactly one, and `(nil, nil)` when there are none. -/
def GetListenerFromEnvironment (s : ProcState) :
    (Option Listener × Option GoErr) × ProcState :=
  let lr := sdListeners false s
  match lr.1 with
  | Except.error e => ((none, some e), lr.2)
  | Except.ok listeners =>
    if listeners.length > 1 then
      ((none, some (GoErr.configurationError "Too many listeners passed from systemd.")),
       lr.2)
    else if listeners.length = 1 then
      ((listeners.head?, none), lr.2)
    else
      ((none, none), lr.2)

/-- Modelled from the spec: `sdDaemon.SdNotify` (go-systemd, not in this
repository) writes the payload to the supervisor's notification socket
named by the environment; it reports whether the signal was sent and any
transport error, and when `unsetEnv` is true it clears the notification
marker. The transport has no acknowledgement, so the outcome `sendErr` is
an abstract input; a failed or absent supervisor affects only the reported
outcome, never the process state. -/
def sdNotify (unsetEnv : Bool) (payload : String) (sendErr : Option String)
    (s : ProcState) : (Bool × Option String) × ProcState :=
  let sent := s.env.notifySocket.isSome && sendErr.isNone && payload != ""
  let after := if unsetEnv then { s with env := { s.env with notifySocket := none } } else s
  ((sent, sendErr), after)

/-- Translation of `NotifyStartupFinished`: calls
`sdDaemon.SdNotify(false, "READY=1")` and discards both of its results, so
the function has no error channel at all. -/
def NotifyStartupFinished (sendErr : Option String) (s : ProcState) : ProcState :=
  (sdNotify false "READY=1" sendErr s).2

/-- The resolver is called with `unsetEnv = false`, so it leaves the whole
process state, in particular the environment, unchanged. -/
theorem getListener_state (s : ProcState) : (GetListenerFromEnvironment s).2 = s := by
  cases ha : s.activationErr with
  | some e => simp [GetListenerFromEnvironment, sdListeners, ha]
  | none =>
    simp only [GetListenerFromEnvironment, sdListeners, ha]
    split
    · rfl
    · split
      · rfl
      · rfl

end Systemd

namespace Systemd

/-- C1: with the descriptor-resolution mechanism itself succeeding,
`GetListenerFromEnvironment` returns `(nil, nil)` for an empty inherited
set, the single listener with a nil error for a singleton set, and
`(nil, ConfigurationError)` — never a listener — for a set of two or
more. -/
theorem getListener_cases (s : ProcState) (h : s.activationErr = none) :
    (s.inherited = [] → (GetListenerFromEnvironment s).1 = (none, none)) ∧
    (∀ l, s.inherited = [l] → (GetListenerFromEnvironment s).1 = (some l, none)) ∧
    (2 ≤ s.inherited.length →
      (GetListenerFromEnvironment s).1.1 = none ∧
      (GetListenerFromEnvironment s).1.2 =
        some (GoErr.configurationError "Too many listeners passed from systemd.")) := by
  refine ⟨?_, ?_, ?_⟩
  · intro he
    simp [GetListenerFromEnvironment, sdListeners, h, he]
  · intro l hl
    simp [GetListenerFromEnvironment, sdListeners, h, hl]
  · intro h2
    have hgt : s.inherited.length > 1 := h2
    constructor <;> simp [GetListenerFromEnvironment, sdListeners, h, hgt]

/-- Witness for C1 at a concrete state with one inherited listener. -/
theorem getListener_cases_witness :
    (GetListenerFromEnvironment
      { env := { listenFDS := some "1", notifySocket := none }
        inherited := [{ fd := 3 }], activationErr := none }).1 =
      (some { fd := 3 }, none) :=
  (getListener_cases _ rfl).2.1 { fd := 3 } rfl

/-- C2: when the status query trims to "degraded" (and its invocation did
not hard-fail), the health check returns true exactly when the dbus
dependency probe trims to "active"; any other probe output gives false, and
a probe invocation failure that is not a non-zero exit status gives
false. -/
theorem degraded_follows_dbus (statusRes dbusRes : CmdResult)
    (hb : hardFailure statusRes.err = false)
    (hs : trimSpace statusRes.output = "degraded") :
    ((hardFailure dbusRes.err = false →
      (IsUserSystemdRunning statusRes dbusRes).result =
        (trimSpace dbusRes.output == "active")) ∧
     (hardFailure dbusRes.err = true →
      (IsUserSystemdRunning statusRes dbusRes).result = false)) := by
  constructor
  · intro hd
    simp [IsUserSystemdRunning, hb, hs, hd]
  · intro hd
    simp [IsUserSystemdRunning, hb, hs, hd]

/-- Witness for C2: status "degraded", dbus probe "inactive" yields
false. -/
theorem degraded_follows_dbus_witness :
    (IsUserSystemdRunning { output := "degraded", err := none }
      { output := "inactive", err := none }).result = false := by
  have h := (degraded_follows_dbus { output := "degraded", err := none }
    { output := "inactive", err := none } (by decide) (by decide)).1 (by decide)
  simpa using h

/-- C3: with a benign status-query error value, a trimmed status of
"running" returns true; the empty string returns false with a diagnostic on
stderr; and every other status besides "degraded" returns false with a
diagnostic on stderr. -/
theorem status_classification (statusRes dbusRes : CmdResult)
    (hb : hardFailure statusRes.err = false) :
    ((trimSpace statusRes.output = "running" →
      (IsUserSystemdRunning statusRes dbusRes).result = true) ∧
     (trimSpace statusRes.output = "" →
      (IsUserSystemdRunning statusRes dbusRes).result = false ∧
      (IsUserSystemdRunning statusRes dbusRes).stderr ≠ []) ∧
     (trimSpace statusRes.output ≠ "" → trimSpace statusRes.output ≠ "running" →
      trimSpace statusRes.output ≠ "degraded" →
      (IsUserSystemdRunning statusRes dbusRes).result = false ∧
      (IsUserSystemdRunning statusRes dbusRes).stderr ≠ [])) := by
  refine ⟨?_, ?_, ?_⟩
  · intro hs
    simp [IsUserSystemdRunning, hb, hs]
  · intro hs
    constructor <;> simp [IsUserSystemdRunning, hb, hs]
  · intro hne hnr hnd
    constructor <;> simp [IsUserSystemdRunning, hb, hne, hnr, hnd]

/-- Witness for C3: status "maintenance" yields false with a non-empty
stderr. -/
theorem status_classification_witness :
    (IsUserSystemdRunning { output := "maintenance", err := none }
      { output := "", err := none }).result = false ∧
    (IsUserSystemdRunning { output := "maintenance", err := none }
      { output := "", err := none }).stderr ≠ [] :=
  (status_classification { output := "maintenance", err := none }
    { output := "", err := none } (by decide)).2.2 (by decide) (by decide) (by decide)

/-- C4: `IsRunningSystemd` equals the conjunction of the system-level
presence check and the user-level health probe, and when the system-level
check is false neither the status query nor the dbus probe subprocess is
launched. -/
theorem supervision_conjunction (sysPresent : Bool) (statusRes dbusRes : CmdResult) :
    (IsRunningSystemd sysPresent statusRes dbusRes).result =
      (sysPresent && (IsUserSystemdRunning statusRes dbusRes).result) ∧
    (sysPresent = false →
      (IsRunningSystemd sysPresent statusRes dbusRes).statusProbed = false ∧
      (IsRunningSystemd sysPresent statusRes dbusRes).dbusProbed = false) := by
  cases sysPresent <;> simp [IsRunningSystemd]

/-- C5: `IsSocketActivated` is true exactly when `LISTEN_FDS` is set and
non-empty, and its value is unchanged by a call to
`GetListenerFromEnvironment`, which does not touch the environment. -/
theorem socket_activated_iff (s : ProcState) :
    (IsSocketActivated s.env = true ↔
      ∃ v, s.env.listenFDS = some v ∧ v ≠ "") ∧
    IsSocketActivated (GetListenerFromEnvironment s).2.env = IsSocketActivated s.env := by
  constructor
  · cases hv : s.env.listenFDS with
    | none => simp [IsSocketActivated, getenv, hv]
    | some v => simp [IsSocketActivated, getenv, hv]
  · rw [getListener_state]

/-- C6: resolving a single inherited listener with `LISTEN_FDS` set to "3"
returns that listener, and neither `GetListenerFromEnvironment` nor
`NotifyStartupFinished` unsets the marker: `IsSocketActivated` is still
true afterwards. -/
theorem markers_not_unset (s : ProcState) (l : Listener) (sendErr : Option String)
    (h1 : s.env.listenFDS = some "3") (h2 : s.inherited = [l])
    (h3 : s.activationErr = none) :
    (GetListenerFromEnvironment s).1 = (some l, none) ∧
    IsSocketActivated (GetListenerFromEnvironment s).2.env = true ∧
    IsSocketActivated
      (NotifyStartupFinished sendErr (GetListenerFromEnvironment s).2).env = true := by
  refine ⟨?_, ?_, ?_⟩
  · simp [GetListenerFromEnvironment, sdListeners, h3, h2]
  · rw [getListener_state]
    simp [IsSocketActivated, getenv, h1]
  · rw [getListener_state]
    simp [NotifyStartupFinished, sdNotify, IsSocketActivated, getenv, h1]

/-- Witness for C6 at a concrete state. -/
theorem markers_not_unset_witness :
    (GetListenerFromEnvironment
      { env := { listenFDS := some "3", notifySocket := none }
        inherited := [{ fd := 3 }], activationErr := none }).1 =
      (some { fd := 3 }, none) ∧
    IsSocketActivated
      (GetListenerFromEnvironment
        { env := { listenFDS := some "3", notifySocket := none }
          inherited := [{ fd := 3 }], activationErr := none }).2.env = true ∧
    IsSocketActivated
      (NotifyStartupFinished none
        (GetListenerFromEnvironment
          { env := { listenFDS := some "3", notifySocket := none }
            inherited := [{ fd := 3 }], activationErr := none }).2).env = true :=
  markers_not_unset _ { fd := 3 } none rfl rfl rfl

/-- C7: `NotifyStartupFinished` returns nothing and can raise no fault: for
every process state and every transport outcome — a reachable supervisor, a
failed send, or no supervisor at all — it leaves the process state exactly
as it was, with no error value in its codomain. -/
theorem notify_no_fault (s : ProcState) (sendErr : Option String) :
    NotifyStartupFinished sendErr s = s := by
  simp [NotifyStartupFinished, sdNotify]

/-- C8: a status-query invocation failure that is not a non-zero exit
status makes `IsUserSystemdRunning` log a diagnostic and return false
without probing further, while a bare non-zero exit status is handled
exactly like a nil error: the captured output is still parsed. -/
theorem hard_failure_handling (statusRes dbusRes : CmdResult) :
    (∀ msg, statusRes.err = some (CmdErr.otherError msg) →
      (IsUserSystemdRunning statusRes dbusRes).result = false ∧
      (IsUserSystemdRunning statusRes dbusRes).stderr =
        ["Failed to run systemctl: check user manager status: " ++ msg ++ "\n"] ∧
      (IsUserSystemdRunning statusRes dbusRes).dbusProbed = false) ∧
    (statusRes.err = some CmdErr.exitError →
      IsUserSystemdRunning statusRes dbusRes =
        IsUserSystemdRunning { output := statusRes.output, err := none } dbusRes) := by
  constructor
  · intro msg hmsg
    refine ⟨?_, ?_, ?_⟩ <;>
      simp [IsUserSystemdRunning, hardFailure, isExitError, goErrorString, hmsg]
  · intro hexit
    simp [IsUserSystemdRunning, hardFailure, isExitError, hexit]

/-- C9: `IsSocketActivated` does no validation of the value of
`LISTEN_FDS`: any set, non-empty value — numeric or not — makes it return
true. -/
theorem no_value_validation (e : Env) (v : String)
    (h1 : e.listenFDS = some v) (h2 : v ≠ "") :
    IsSocketActivated e = true := by
  simp [IsSocketActivated, getenv, h1, h2]

/-- Witness for C9 at the non-numeric value "abc" and the zero count
"0". -/
theorem no_value_validation_witness :
    IsSocketActivated { listenFDS := some "abc", notifySocket := none } = true ∧
    IsSocketActivated { listenFDS := some "0", notifySocket := none } = true :=
  ⟨no_value_validation _ "abc" rfl (by decide),
   no_value_validation _ "0" rfl (by decide)⟩

/-- C10: the dbus dependency probe subprocess is launched exactly when the
status query did not hard-fail and its trimmed output is "degraded"; for
"running", the empty string and every other output it is never launched. -/
theorem dbus_probe_only_on_degraded (statusRes dbusRes : CmdResult) :
    (IsUserSystemdRunning statusRes dbusRes).dbusProbed = true ↔
      (hardFailure statusRes.err = false ∧ trimSpace statusRes.output = "degraded") := by
  constructor
  · intro hp
    by_cases hb : hardFailure statusRes.err
    · simp [IsUserSystemdRunning, hb] at hp
    · refine ⟨by simpa using hb, ?_⟩
      by_cases hr : trimSpace statusRes.output = "running"
      · simp [IsUserSystemdRunning, hb, hr] at hp
      · by_cases hd : trimSpace statusRes.output = "degraded"
        · exact hd
        · by_cases he : trimSpace statusRes.output = ""
          · simp [IsUserSystemdRunning, hb, hr, hd, he] at hp
          · simp [IsUserSystemdRunning, hb, hr, hd, he] at hp
  · rintro ⟨hb, hd⟩
    by_cases hf : hardFailure dbusRes.err <;>
      simp [IsUserSystemdRunning, hb, hd, hf]

end Systemd
